import Mathlib

/-!
Shallow embedding of `src/stactools/palsar/stac.py` from the
`stactools-palsar` repository: the Filename/Asset Grouper
(`create_item_from_href`) and the Metadata Deriver (`create_item`),
together with the `FILENAME_PARTS` regular expression and the
year-dependent platform and nodata rules.

Filenames and paths are modelled as `List Char`; the Python `os.path`
and `str` operations used by the source are given explicit definitions
below.  Fallible code returns `Except PyError`.
-/

namespace Palsar

/-- Python `s.split(sep)` for a one-character separator: splits on every
occurrence, keeping empty pieces, and returns `[s]` when the separator is
absent (the result is never empty). -/
def splitOnChar (sep : Char) : List Char → List (List Char)
  | [] => [[]]
  | c :: cs =>
    let rest := splitOnChar sep cs
    if c = sep then [] :: rest
    else
      match rest with
      | [] => [[c]]
      | r :: rs => (c :: r) :: rs

/-- Python `s.rsplit(sep, 1)`: splits at the last occurrence of the
separator, `none` when the separator does not occur (in which case Python
returns the one-element list `[s]`, and two-variable unpacking raises
`ValueError`). -/
def rsplitOnce (sep : Char) : List Char → Option (List Char × List Char)
  | [] => none
  | c :: cs =>
    match rsplitOnce sep cs with
    | some p => some (c :: p.1, p.2)
    | none => if c = sep then some ([], cs) else none

/-- Python `os.path.basename` (posix): the part after the last slash. -/
def basename (s : List Char) : List Char :=
  match rsplitOnce '/' s with
  | some p => p.2
  | none => s

/-- Splits off the maximal run of leading dots of a name; helper for
`os.path.splitext`, whose extension dot must be preceded by a non-dot
character within the basename. -/
def stripDots : List Char → List Char × List Char
  | [] => ([], [])
  | c :: cs =>
    if c = '.' then
      let p := stripDots cs
      ('.' :: p.1, p.2)
    else ([], c :: cs)

/-- Root part of Python `os.path.splitext` for a name without slashes:
drops the extension starting at the last dot, except that leading dots of
the name never start an extension. -/
def splitextRootBase (base : List Char) : List Char :=
  let p := stripDots base
  match rsplitOnce '.' p.2 with
  | some q => p.1 ++ q.1
  | none => base

/-- Root part of Python `os.path.splitext(s)[0]`: the extension is looked
for only in the component after the last slash. -/
def splitextRoot (s : List Char) : List Char :=
  match rsplitOnce '/' s with
  | some p => p.1 ++ '/' :: splitextRootBase p.2
  | none => splitextRootBase s

/-- Python `s.endswith(suffix)`. -/
def endsWith (suf s : List Char) : Bool :=
  suf.isSuffixOf s

/-- The filename suffix `".xml"` tested by the Grouper. -/
def xmlSuffix : List Char :=
  ".xml".toList

/-- The filename suffix `"_C.tif"` tested by the Grouper. -/
def ctifSuffix : List Char :=
  "_C.tif".toList

/-- Python `s.rsplit(sep, 1)[0]` for the slash separator: the part before
the last slash, or the whole string when there is none. -/
def rsplitDir (s : List Char) : List Char :=
  match rsplitOnce '/' s with
  | some p => p.1
  | none => s

/-- Python `"_".join(tokens)`. -/
def joinTokens : List (List Char) → List Char
  | [] => []
  | [x] => x
  | x :: xs => x ++ '_' :: joinTokens xs

/-- Python `*a, _, b = tokens; a + [b]`: drops the second-to-last token.
The source only reaches this with at least three tokens (it has already
indexed token 2); on shorter lists Python would raise `ValueError`, a
case that is unreachable in `create_item` below. -/
def dropPenultimate (l : List (List Char)) : List (List Char) :=
  match l.reverse with
  | b :: _ :: rest => (b :: rest).reverse
  | _ => l

/-- Python `os.path.join(root, name)` restricted to the shapes the source
uses: empty root keeps the name, an absolute name wins, otherwise the two
are joined with a single slash. -/
def pyJoinPath (root name : List Char) : List Char :=
  if root = [] then name
  else if name.head? = some '/' then name
  else if root.getLast? = some '/' then root ++ name
  else root ++ '/' :: name

/-! The `FILENAME_PARTS` regular expression of `stac.py`:

    (?P<MODE>[F|U])(?P<BEAM_NUMBER>\w{2})(?P<POLARIZATIONS>[D|Q])
    (?P<ORBIT>[A|D])(?P<OBSERVATION>[R|L])

Each bracket class literally contains the pipe character, and `.match`
anchors at the start only, so trailing characters beyond the first six are
ignored.  `\w` is modelled for ASCII inputs (letter, digit or underscore);
the filenames handled by the source are ASCII. -/

/-- Python `\w` on ASCII: letter, digit or underscore. -/
def isWordChar (c : Char) : Bool :=
  c.isAlphanum || c = '_'

/-- Character class `[F|U]` of the MODE group (the pipe is a literal
member of the class). -/
def modeClass (c : Char) : Bool :=
  c == 'F' || c == '|' || c == 'U'

/-- Character class `[D|Q]` of the POLARIZATIONS group. -/
def polClass (c : Char) : Bool :=
  c == 'D' || c == '|' || c == 'Q'

/-- Character class `[A|D]` of the ORBIT group. -/
def orbitClass (c : Char) : Bool :=
  c == 'A' || c == '|' || c == 'D'

/-- Character class `[R|L]` of the OBSERVATION group. -/
def obsClass (c : Char) : Bool :=
  c == 'R' || c == '|' || c == 'L'

/-- The named groups of a successful `FILENAME_PARTS.match`. -/
structure PalsarParts where
  MODE : Char
  BEAM_NUMBER : List Char
  POLARIZATIONS : Char
  ORBIT : Char
  OBSERVATION : Char
deriving DecidableEq

/-- Python `FILENAME_PARTS.match(s)`: anchored at the start, it consumes
the first six characters when they satisfy the five groups, ignoring any
rest; shorter or non-matching input yields `none`. -/
def filenameParts_match (s : List Char) : Option PalsarParts :=
  match s with
  | m :: b1 :: b2 :: p :: o :: d :: _ =>
    if modeClass m && isWordChar b1 && isWordChar b2 && polClass p && orbitClass o && obsClass d
    then some ⟨m, [b1, b2], p, o, d⟩
    else none
  | _ => none

/-- Concatenation of the parsed groups in their grouping order: mode,
beam number, polarization count, orbit direction, observation side. -/
def reconstruct (p : PalsarParts) : List Char :=
  p.MODE :: (p.BEAM_NUMBER ++ p.POLARIZATIONS :: p.ORBIT :: [p.OBSERVATION])

/-! Constants referenced from `constants.py`, which is not part of the
sources under inspection; only their shape matters to the claims. -/

/-- Modelled from the spec: `constants.py` is not under `src/`.  The
platform constants, first generation at index 0 and second generation at
index 1, as selected by the year threshold in `create_item`.  The values
are placeholders; the two generations are distinct constants. -/
def ALOS_PALSAR_PLATFORMS : List String :=
  ["palsar-generation-1-platform", "palsar-generation-2-platform"]

/-- Modelled from the spec: `constants.py` is not under `src/`.  The
instrument constants, first generation at index 0 and second generation at
index 1. -/
def ALOS_PALSAR_INSTRUMENTS : List String :=
  ["palsar-generation-1-instrument", "palsar-generation-2-instrument"]

/-- Modelled from the spec: the dual-polarization list `{HH, HV}`. -/
def ALOS_DUAL_POLARIZATIONS : List String :=
  ["HH", "HV"]

/-- Modelled from the spec: the quad-polarization list, `VH` and `VV`
added to the dual set. -/
def ALOS_QUAD_POLARIZATIONS : List String :=
  ["HH", "HV", "VH", "VV"]

/-- Modelled from the spec: the fixed frequency-band constant. -/
def ALOS_FREQUENCY_BAND : String :=
  "L"

/-- Modelled from the spec: the fixed product-type constant. -/
def ALOS_PRODUCT_TYPE : String :=
  "palsar-product-type"

/-- Modelled from the spec: `constants.py` is not under `src/`.  The
band-semantics lookup table `ALOS_BANDS`, keyed by band key and carrying
the raster data type; it has an entry for every raster band of the spec's
band vocabulary.  The data-type values are placeholders. -/
def ALOS_BANDS : List (List Char × String) :=
  [("date".toList, "uint16"), ("linci".toList, "uint8"), ("mask".toList, "uint8"),
   ("HH".toList, "uint16"), ("HV".toList, "uint16"), ("VH".toList, "uint16"),
   ("VV".toList, "uint16"), ("C".toList, "uint8")]

/-- The inline nodata table of `create_item` used for acquisition years
from 2017 on. -/
def nodata_by_band : List (List Char × Nat) :=
  [("HH".toList, 1), ("HV".toList, 1), ("mask".toList, 0),
   ("linci".toList, 1), ("date".toList, 1), ("C".toList, 0)]

/-- The year-and-band-dependent nodata rule of `create_item`: for
two-digit year at least 17 the table value with default 0, otherwise
uniformly 0. -/
def nodata_for (yy : Nat) (key : List Char) : Nat :=
  if 17 ≤ yy then (nodata_by_band.lookup key).getD 0 else 0

/-- The generation-threshold rule of `create_item`: two-digit year at
least 15 selects the index-1 (second generation) platform/instrument
pair, earlier years the index-0 (first generation) pair. -/
def platform_for (yy : Nat) : String × List String :=
  if 15 ≤ yy then
    (ALOS_PALSAR_PLATFORMS.getD 1 "", [ALOS_PALSAR_INSTRUMENTS.getD 1 ""])
  else
    (ALOS_PALSAR_PLATFORMS.getD 0 "", [ALOS_PALSAR_INSTRUMENTS.getD 0 ""])

/-- Failure modes of the embedded Python code: `ValueError` with its
message, and `IndexError` from out-of-range indexing. -/
inductive PyError where
  | valueError : String → PyError
  | indexError : PyError
deriving DecidableEq

/-- Message of the `ValueError` raised by two-variable unpacking of a
one-element `rsplit` result. -/
def unpackMsg : String :=
  "not enough values to unpack"

/-- The asset-grouping part of `create_item_from_href`: from one
representative path, the ordered mapping from band key to file location.
`_C.tif` paths map to the single `C` entry; `.xml` paths reconstruct the
sibling rasters from the `(stem, code)` split of the name, adding `VH` and
`VV` kinds when the fourth character of the code is `Q`, plus the
`metadata` entry; anything else is the `Unknown type` error. -/
def group_assets (asset_href : List Char) : Except PyError (List (List Char × List Char)) :=
  let filename := basename asset_href
  if endsWith ctifSuffix filename then
    .ok [("C".toList, asset_href)]
  else if endsWith xmlSuffix filename then
    let dir0 := rsplitDir asset_href
    match rsplitOnce '_' filename with
    | none => .error (.valueError unpackMsg)
    | some pq =>
      let stem := pq.1
      let token := splitextRoot pq.2
      match token[3]? with
      | none => .error .indexError
      | some c4 =>
        let kinds : List String :=
          ["date", "linci", "mask", "sl_HH", "sl_HV"] ++
            (if c4 = 'Q' then ["sl_VH", "sl_VV"] else [])
        let entries := kinds.map (fun kind =>
          ((splitOnChar '_' kind.toList).getLastD [],
            dir0 ++ '/' :: stem ++ '_' :: kind.toList ++ '_' :: token ++ ".tif".toList))
        .ok (entries ++ [("metadata".toList, asset_href)])
  else
    .error (.valueError "Unknown type")

/-- Band keys of the dual-polarization grouping, in insertion order. -/
def dualKeys : List (List Char) :=
  ["date".toList, "linci".toList, "mask".toList, "HH".toList, "HV".toList,
   "metadata".toList]

/-- Band keys of the quad-polarization grouping, in insertion order. -/
def quadKeys : List (List Char) :=
  ["date".toList, "linci".toList, "mask".toList, "HH".toList, "HV".toList,
   "VH".toList, "VV".toList, "metadata".toList]

/-- What `rasterio.open` reports for the reference raster: optional EPSG
code of the CRS, bounds, affine transform and pixel shape. -/
structure Dataset where
  crs_epsg : Option Int
  bounds : List Int
  transform : List Int
  shape : Nat × Nat
deriving DecidableEq

/-- Message of the `ValueError` raised on a non-4326 CRS. -/
def crsMsg : String :=
  "dataset is not EPSG:4326, which is required for ALOS data"

/-- Message of the `ValueError` raised when the band-code segment fails
`FILENAME_PARTS`. -/
def patternMsg : String :=
  "asset filename does not match the expected pattern"

/-- Message of the failure of `isoparse` on the assembled datetime when
the year token is not two digits. -/
def isoMsg : String :=
  "Invalid isoformat string"

/-- The year token as used by `isoparse("20" + year + ...)` and
`int(year)`: both succeed exactly when the token is two digits, whose
value is returned. -/
def twoDigitYear? (year : List Char) : Option Nat :=
  match year with
  | [a, b] =>
    if a.isDigit && b.isDigit then some ((a.toNat - 48) * 10 + (b.toNat - 48))
    else none
  | _ => none

/-- One raster-band descriptor attached by the raster extension. -/
structure RasterBandInfo where
  nodata : Nat
  data_type : String
deriving DecidableEq

/-- One asset as added by the per-asset loop of `create_item`. -/
structure PyAsset where
  key : List Char
  href : List Char
  media_type : String
  roles : List String
  title : List Char
  bands : List RasterBandInfo
  class_table : Option String
deriving DecidableEq

/-- The `MediaType.XML` constant. -/
def MediaTypeXML : String :=
  "application/xml"

/-- The `MediaType.COG` constant. -/
def MediaTypeCOG : String :=
  "image/tiff; application=geotiff; profile=cloud-optimized"

/-- The body of the per-asset loop of `create_item` for one `(key, value)`
pair: href rewriting against the base path, media kind and roles by the
`.xml` suffix, title, the raster band with its nodata value for non-xml
assets with an `ALOS_BANDS` entry, and the classification table for the
`C` and `mask` keys. -/
def mk_asset (is_fnf : Bool) (yy : Nat) (root_href : List Char)
    (kv : List Char × List Char) : PyAsset :=
  let href := if root_href = [] then kv.2 else pyJoinPath root_href (basename kv.2)
  let isXml := endsWith xmlSuffix href
  let media := if isXml then MediaTypeXML else MediaTypeCOG
  let roles : List String := if isXml then ["metadata"] else ["data"]
  let title := if is_fnf then "FNF".toList else kv.1
  let bands : List RasterBandInfo :=
    if isXml then []
    else
      match ALOS_BANDS.lookup kv.1 with
      | some dt => [⟨nodata_for yy kv.1, dt⟩]
      | none => []
  let ct : Option String :=
    if isXml then none
    else if kv.1 = "C".toList then some "ALOS_FNF_CLASSIFICATION_CLASSES"
    else if kv.1 = "mask".toList then some "ALOS_MASK_CLASSIFICATION_CLASSES"
    else none
  ⟨kv.1, href, media, roles, title, bands, ct⟩

/-- The SAR extension fields populated for mosaic items. -/
structure SarProps where
  instrument_mode : Char
  observation_direction : String
  frequency_band : String
  polarizations : List String
  product_type : String
deriving DecidableEq

/-- The STAC Item as populated by `create_item`. -/
structure Item where
  id : List Char
  bbox : List Int
  datetime : List Char
  title : List Char
  description : String
  start_datetime : List Char
  end_datetime : List Char
  collection_id : String
  collection_link : List Char
  platform : String
  instruments : List String
  proj_epsg : Int
  proj_shape : Nat × Nat
  proj_transform : List Int
  sar : Option SarProps
  orbit_state : Option String
  cf_set : Bool
  beam_number : Option (List Char)
  number_of_polarizations : Option Char
  assets : List PyAsset
deriving DecidableEq

/-- The `ALOS_PALSAR_EPSG` constant attached by the projection extension. -/
def ALOS_PALSAR_EPSG : Int :=
  4326

/-- The Metadata Deriver `create_item`: from the ordered asset mapping, a
base path and the opened reference raster, the fully populated Item, or
the first failure in source order: empty mapping (`IndexError` on
`values()[0]`), missing year or band token (`IndexError`), non-4326 CRS
(`ValueError`), non-two-digit year (`isoparse` failure), and for mosaic
products a band-code segment rejected by `FILENAME_PARTS` (`ValueError`). -/
def create_item (assets_hrefs : List (List Char × List Char)) (root_href : List Char)
    (dataset : Dataset) : Except PyError Item :=
  match assets_hrefs with
  | [] => .error .indexError
  | kv0 :: _ =>
    let asset_href := kv0.2
    let filename := basename (splitextRoot asset_href)
    match (splitOnChar '_' (basename asset_href))[1]? with
    | none => .error .indexError
    | some year =>
      match (splitOnChar '_' filename)[2]? with
      | none => .error .indexError
      | some tok2 =>
        let is_fnf := tok2 == "C".toList
        let item_root :=
          if is_fnf then joinTokens ((splitOnChar '_' (basename asset_href)).take 2)
          else joinTokens (dropPenultimate (splitOnChar '_' filename))
        if dataset.crs_epsg ≠ some 4326 then
          .error (.valueError crsMsg)
        else
          let start_datetime := "20".toList ++ year ++ "-01-01T00:00:00Z".toList
          let end_datetime := "20".toList ++ year ++ "-12-31T23:59:59Z".toList
          let idc :=
            if is_fnf then
              (item_root ++ "_FNF".toList, "Forest/Non-Forest Classification",
                "alos-fnf-mosaic")
            else
              (item_root ++ "_MOS".toList, "Annual PALSAR Mosaic", "alos-palsar-mosaic")
          match twoDigitYear? year with
          | none => .error (.valueError isoMsg)
          | some yy =>
            let pf := platform_for yy
            let base : Item :=
              { id := idc.1, bbox := dataset.bounds, datetime := start_datetime,
                title := idc.1, description := idc.2.1,
                start_datetime := start_datetime, end_datetime := end_datetime,
                collection_id := idc.2.2,
                collection_link := pyJoinPath root_href (idc.2.2.toList ++ ".json".toList),
                platform := pf.1, instruments := pf.2,
                proj_epsg := ALOS_PALSAR_EPSG, proj_shape := dataset.shape,
                proj_transform := dataset.transform,
                sar := none, orbit_state := none, cf_set := false,
                beam_number := none, number_of_polarizations := none,
                assets := assets_hrefs.map (mk_asset is_fnf yy root_href) }
            if idc.2.2 = "alos-palsar-mosaic" then
              match filenameParts_match ((splitOnChar '_' filename).getLastD []) with
              | none => .error (.valueError patternMsg)
              | some m =>
                .ok { base with
                  sar := some
                    { instrument_mode := m.MODE,
                      observation_direction := if m.OBSERVATION = 'L' then "left" else "right",
                      frequency_band := ALOS_FREQUENCY_BAND,
                      polarizations :=
                        if m.POLARIZATIONS = 'D' then ALOS_DUAL_POLARIZATIONS
                        else ALOS_QUAD_POLARIZATIONS,
                      product_type := ALOS_PRODUCT_TYPE },
                  orbit_state := some (if m.ORBIT = 'A' then "ascending" else "descending"),
                  cf_set := true,
                  beam_number := some m.BEAM_NUMBER,
                  number_of_polarizations := some m.POLARIZATIONS }
            else
              .ok base

/-- A well-formed reference raster: EPSG 4326 with concrete bounds,
transform and shape. -/
def okDataset : Dataset :=
  ⟨some 4326, [95, 4, 100, 5], [1, 0, 95, 0, -1, 5], (4500, 4500)⟩

/-! Helper lemmas. -/

lemma endsWith_iff {suf s : List Char} : endsWith suf s = true ↔ suf <:+ s := by
  simp [endsWith]

lemma endsWith_xml_not_ctif {f : List Char}
    (h : endsWith xmlSuffix f = true) :
    endsWith ctifSuffix f = false := by
  cases hc : endsWith ctifSuffix f with
  | false => rfl
  | true =>
    exfalso
    obtain ⟨t1, e1⟩ := endsWith_iff.mp h
    obtain ⟨t2, e2⟩ := endsWith_iff.mp hc
    have e3 := congrArg List.reverse (e1.trans e2.symm)
    rw [show (xmlSuffix : List Char) = ['.', 'x', 'm', 'l'] from rfl,
        show (ctifSuffix : List Char) = ['_', 'C', '.', 't', 'i', 'f'] from rfl] at e3
    simp [List.reverse_append] at e3

/-- Claim C1 (amended): characterization of the band-code parse.  The
match succeeds exactly when the segment has at least six characters and
its first six satisfy, in order, the classes `[F|U]`, `\w`, `\w`, `[D|Q]`,
`[A|D]`, `[R|L]` (each containing the literal pipe character, trailing
characters ignored); and, universally, every mosaic Item derivation whose
band-code segment (the last underscore token of the representative
filename) fails the match raises the malformed-code error instead of
defaulting any field — stated under the preconditions that the year and
band tokens exist, the CRS is 4326 and the year is two digits, the
failures that precede the pattern check in source order. -/
theorem C1_band_code_parse :
    (∀ s : List Char, (filenameParts_match s).isSome = true ↔
      ∃ m b1 b2 p o d rest, s = m :: b1 :: b2 :: p :: o :: d :: rest ∧
        modeClass m = true ∧ isWordChar b1 = true ∧ isWordChar b2 = true ∧
        polClass p = true ∧ orbitClass o = true ∧ obsClass d = true) ∧
    (∀ (kv0 : List Char × List Char) (rest : List (List Char × List Char))
      (root_href : List Char) (dataset : Dataset) (year tok2 : List Char) (yy : Nat),
      (splitOnChar '_' (basename kv0.2))[1]? = some year →
      (splitOnChar '_' (basename (splitextRoot kv0.2)))[2]? = some tok2 →
      dataset.crs_epsg = some 4326 →
      twoDigitYear? year = some yy →
      tok2 ≠ "C".toList →
      filenameParts_match
        ((splitOnChar '_' (basename (splitextRoot kv0.2))).getLastD []) = none →
      create_item (kv0 :: rest) root_href dataset = .error (.valueError patternMsg)) := by
  constructor
  · intro s
    constructor
    · intro h
      match s with
      | [] => simp [filenameParts_match] at h
      | [m] => simp [filenameParts_match] at h
      | [m, b1] => simp [filenameParts_match] at h
      | [m, b1, b2] => simp [filenameParts_match] at h
      | [m, b1, b2, p] => simp [filenameParts_match] at h
      | [m, b1, b2, p, o] => simp [filenameParts_match] at h
      | m :: b1 :: b2 :: p :: o :: d :: rest =>
        simp only [filenameParts_match] at h
        by_cases hcond : (modeClass m && isWordChar b1 && isWordChar b2 && polClass p &&
            orbitClass o && obsClass d) = true
        · simp only [Bool.and_eq_true] at hcond
          exact ⟨m, b1, b2, p, o, d, rest, rfl, hcond.1.1.1.1.1, hcond.1.1.1.1.2,
            hcond.1.1.1.2, hcond.1.1.2, hcond.1.2, hcond.2⟩
        · rw [if_neg hcond] at h
          simp at h
    · rintro ⟨m, b1, b2, p, o, d, rest, rfl, h1, h2, h3, h4, h5, h6⟩
      simp [filenameParts_match, h1, h2, h3, h4, h5, h6]
  · intro kv0 rest root_href dataset year tok2 yy hyear htok hcrs hyy htokC hfail
    have hb : (tok2 == ['C']) = false := by simpa using htokC
    rw [List.getLastD_eq_getLast?] at hfail
    simp [create_item, hyear, htok, hcrs, hyy, hb, hfail]

/-- Claim C1, witness: a concrete segment accepted through the
characterization, and a concrete mosaic derivation whose band-code segment
`ZZZDAR` fails the match and raises the malformed-code error. -/
theorem C1_witness :
    (filenameParts_match ("U00QDL".toList)).isSome = true ∧
    create_item [("HH".toList, "a/N05E100_15_ZZZDAR.tif".toList)] [] okDataset =
      .error (.valueError patternMsg) :=
  ⟨(C1_band_code_parse.1 ("U00QDL".toList)).mpr
      ⟨'U', '0', '0', 'Q', 'D', 'L', [], rfl, rfl, rfl, rfl, rfl, rfl, rfl⟩,
    C1_band_code_parse.2 ("HH".toList, "a/N05E100_15_ZZZDAR.tif".toList) [] [] okDataset
      ("15".toList) ("ZZZDAR".toList) 15 (by decide) (by decide) (by decide) (by decide)
      (by decide) (by decide)⟩

/-- Claim C1, counterexample: the code `F02DAR` (the mode descriptor of
the spec's own example) is accepted by the parse although it has six
characters, not five; the claim's "exactly 5 characters" conjunct is
unsatisfiable for the six-character-wide pattern, so the stated
equivalence fails. -/
theorem C1_counterexample :
    (filenameParts_match ("F02DAR".toList)).isSome = true ∧
      ("F02DAR".toList).length ≠ 5 := by
  decide

/-- Claim C8 (amended): for every segment accepted by the parse,
concatenating the parsed fields in grouping order reproduces the first six
characters of the segment (the matched portion); the round-trip is the
identity exactly on segments of length six. -/
theorem C8_roundtrip (s : List Char) (p : PalsarParts)
    (h : filenameParts_match s = some p) :
    reconstruct p = s.take 6 ∧ (s.length = 6 → reconstruct p = s) := by
  match s with
  | [] => simp [filenameParts_match] at h
  | [m] => simp [filenameParts_match] at h
  | [m, b1] => simp [filenameParts_match] at h
  | [m, b1, b2] => simp [filenameParts_match] at h
  | [m, b1, b2, q] => simp [filenameParts_match] at h
  | [m, b1, b2, q, o] => simp [filenameParts_match] at h
  | m :: b1 :: b2 :: q :: o :: d :: rest =>
    simp only [filenameParts_match] at h
    by_cases hcond : (modeClass m && isWordChar b1 && isWordChar b2 && polClass q &&
        orbitClass o && obsClass d) = true
    · rw [if_pos hcond] at h
      cases h
      constructor
      · simp [reconstruct]
      · intro hlen
        simp only [List.length_cons] at hlen
        have : rest = [] := List.eq_nil_of_length_eq_zero (by omega)
        subst this
        simp [reconstruct]
    · rw [if_neg hcond] at h
      cases h

/-- Claim C8, witness: the round-trip at the concrete code `F02DAR`. -/
theorem C8_witness : reconstruct ⟨'F', ['0', '2'], 'D', 'A', 'R'⟩ = "F02DAR".toList :=
  (C8_roundtrip ("F02DAR".toList) ⟨'F', ['0', '2'], 'D', 'A', 'R'⟩ (by decide)).2 (by decide)

/-- Claim C8, counterexample: the seven-character segment `F02DARX` is
accepted by the parse, but concatenating its parsed fields yields
`F02DAR`, not the original segment, so the round-trip is not the identity
on all accepted segments. -/
theorem C8_counterexample :
    ∃ p, filenameParts_match ("F02DARX".toList) = some p ∧
      reconstruct p ≠ "F02DARX".toList :=
  ⟨⟨'F', ['0', '2'], 'D', 'A', 'R'⟩, by decide, by decide⟩

/-- The representative metadata filename of the spec's worked example. -/
def c2Href : List Char :=
  "a/N05E100_15_F02DAR.xml".toList

/-- The asset mapping the Grouper produces for `c2Href`. -/
def c2Assets : List (List Char × List Char) :=
  [("date".toList, "a/N05E100_15_date_F02DAR.tif".toList),
   ("linci".toList, "a/N05E100_15_linci_F02DAR.tif".toList),
   ("mask".toList, "a/N05E100_15_mask_F02DAR.tif".toList),
   ("HH".toList, "a/N05E100_15_sl_HH_F02DAR.tif".toList),
   ("HV".toList, "a/N05E100_15_sl_HV_F02DAR.tif".toList),
   ("metadata".toList, c2Href)]

/-- Claim C2, counterexample: the claim asserts that the derived two-digit
year 15 selects the first-generation platform constant, but the source
branch `int(year) >= 15` selects the index-1 (second generation) constant,
which differs from the index-0 (first generation) constant. -/
theorem C2_counterexample :
    ((group_assets c2Href).bind (fun m => create_item m [] okDataset)).map
        (fun it => it.platform) = .ok (ALOS_PALSAR_PLATFORMS.getD 1 "") ∧
      ALOS_PALSAR_PLATFORMS.getD 1 "" ≠ ALOS_PALSAR_PLATFORMS.getD 0 "" :=
  ⟨rfl, by decide⟩

/-- Claim C2 (amended): for the metadata filename `N05E100_15_F02DAR.xml`,
grouping yields exactly the six assets keyed `date, linci, mask, HH, HV,
metadata`; the derived two-digit year 15 selects the second-generation
platform/instrument constants; and the mode descriptor `F02DAR` parses to
mode `F`, dual polarization, ascending orbit and right-look observation
direction. -/
theorem C2_example :
    group_assets c2Href = .ok c2Assets ∧
    c2Assets.map Prod.fst = dualKeys ∧ dualKeys.length = 6 ∧
    (create_item c2Assets [] okDataset).map (fun it => (it.platform, it.instruments)) =
      .ok (ALOS_PALSAR_PLATFORMS.getD 1 "", [ALOS_PALSAR_INSTRUMENTS.getD 1 ""]) ∧
    (create_item c2Assets [] okDataset).map
        (fun it => (it.sar, it.orbit_state, it.number_of_polarizations)) =
      .ok (some ⟨'F', "right", ALOS_FREQUENCY_BAND, ALOS_DUAL_POLARIZATIONS,
          ALOS_PRODUCT_TYPE⟩, some "ascending", some 'D') :=
  ⟨rfl, rfl, rfl, rfl, rfl⟩

/-- Claim C4: years at least 2015 (two-digit token value plus the
hard-coded century 2000) select the second-generation platform/instrument
pair, earlier years the first-generation pair, with the boundary 2015 on
generation 2; and the full derivation at concrete years 15 and 14 lands on
the respective constants. -/
theorem C4_platform_threshold :
    (∀ yy : Nat, 2015 ≤ 2000 + yy →
      platform_for yy = (ALOS_PALSAR_PLATFORMS.getD 1 "", [ALOS_PALSAR_INSTRUMENTS.getD 1 ""])) ∧
    (∀ yy : Nat, 2000 + yy < 2015 →
      platform_for yy = (ALOS_PALSAR_PLATFORMS.getD 0 "", [ALOS_PALSAR_INSTRUMENTS.getD 0 ""])) ∧
    platform_for 15 = (ALOS_PALSAR_PLATFORMS.getD 1 "", [ALOS_PALSAR_INSTRUMENTS.getD 1 ""]) ∧
    (create_item [("HH".toList, "a/N05E100_15_sl_HH_F02DAR.tif".toList)] [] okDataset).map
        (fun it => (it.platform, it.instruments)) =
      .ok (ALOS_PALSAR_PLATFORMS.getD 1 "", [ALOS_PALSAR_INSTRUMENTS.getD 1 ""]) ∧
    (create_item [("HH".toList, "a/N05E100_14_sl_HH_F02DAR.tif".toList)] [] okDataset).map
        (fun it => (it.platform, it.instruments)) =
      .ok (ALOS_PALSAR_PLATFORMS.getD 0 "", [ALOS_PALSAR_INSTRUMENTS.getD 0 ""]) := by
  refine ⟨?_, ?_, rfl, rfl, rfl⟩
  · intro yy h
    rw [platform_for, if_pos (by omega)]
  · intro yy h
    rw [platform_for, if_neg (by omega)]

/-- Claim C4, witness: the rule at the concrete year 2016. -/
theorem C4_witness :
    platform_for 16 = (ALOS_PALSAR_PLATFORMS.getD 1 "", [ALOS_PALSAR_INSTRUMENTS.getD 1 ""]) :=
  C4_platform_threshold.1 16 (by omega)

/-- The four band keys whose nodata value is 1 from 2017 on. -/
def claimOneBands : List (List Char) :=
  ["HH".toList, "HV".toList, "linci".toList, "date".toList]

lemma nodata_lookup_eq (key : List Char) :
    (nodata_by_band.lookup key).getD 0 = if key ∈ claimOneBands then 1 else 0 := by
  by_cases h1 : key = ['H', 'H']
  · subst h1; decide
  by_cases h2 : key = ['H', 'V']
  · subst h2; decide
  by_cases h3 : key = ['m', 'a', 's', 'k']
  · subst h3; decide
  by_cases h4 : key = ['l', 'i', 'n', 'c', 'i']
  · subst h4; decide
  by_cases h5 : key = ['d', 'a', 't', 'e']
  · subst h5; decide
  by_cases h6 : key = ['C']
  · subst h6; decide
  have b1 : (key == ['H', 'H']) = false := by simp [h1]
  have b2 : (key == ['H', 'V']) = false := by simp [h2]
  have b3 : (key == ['m', 'a', 's', 'k']) = false := by simp [h3]
  have b4 : (key == ['l', 'i', 'n', 'c', 'i']) = false := by simp [h4]
  have b5 : (key == ['d', 'a', 't', 'e']) = false := by simp [h5]
  have b6 : (key == ['C']) = false := by simp [h6]
  simp [nodata_by_band, claimOneBands, List.lookup, b1, b2, b3, b4, b5, b6,
    h1, h2, h4, h5]

/-- Claim C3: for every raster-kind asset (computed href not ending in
`.xml`) whose band key has an `ALOS_BANDS` entry, the attached nodata
value is: for acquisition year at least 2017, 1 exactly for the bands
`HH, HV, linci, date` and 0 for every other band (in particular `mask` and
`C`); for acquisition year below 2017, uniformly 0. -/
theorem C3_nodata_rule (is_fnf : Bool) (yy : Nat) (root_href : List Char)
    (kv : List Char × List Char) (dt : String)
    (hlook : ALOS_BANDS.lookup kv.1 = some dt)
    (hcog : endsWith xmlSuffix ((mk_asset is_fnf yy root_href kv).href) = false) :
    (2017 ≤ 2000 + yy → (mk_asset is_fnf yy root_href kv).bands =
      [⟨if kv.1 ∈ claimOneBands then 1 else 0, dt⟩]) ∧
    (2000 + yy < 2017 → (mk_asset is_fnf yy root_href kv).bands = [⟨0, dt⟩]) := by
  have hhref : (mk_asset is_fnf yy root_href kv).href =
      (if root_href = [] then kv.2 else pyJoinPath root_href (basename kv.2)) := rfl
  rw [hhref] at hcog
  have hbands : (mk_asset is_fnf yy root_href kv).bands = [⟨nodata_for yy kv.1, dt⟩] := by
    simp [mk_asset, hcog, hlook]
  constructor
  · intro hy
    have hval : nodata_for yy kv.1 = (nodata_by_band.lookup kv.1).getD 0 := by
      unfold nodata_for
      exact if_pos (by omega)
    rw [hbands, hval, nodata_lookup_eq]
  · intro hy
    have hval : nodata_for yy kv.1 = 0 := by
      unfold nodata_for
      exact if_neg (by omega)
    rw [hbands, hval]

/-- Claim C3, witness: band `HH` gets nodata 1 at year 17 and nodata 0 at
year 16. -/
theorem C3_witness :
    (mk_asset false 17 [] ("HH".toList, "a/v.tif".toList)).bands = [⟨1, "uint16"⟩] ∧
    (mk_asset false 16 [] ("HH".toList, "a/v.tif".toList)).bands = [⟨0, "uint16"⟩] := by
  constructor
  · exact ((C3_nodata_rule false 17 [] ("HH".toList, "a/v.tif".toList) "uint16"
      (by decide) (by decide)).1 (by omega)).trans (by decide)
  · exact (C3_nodata_rule false 16 [] ("HH".toList, "a/v.tif".toList) "uint16"
      (by decide) (by decide)).2 (by omega)

lemma group_assets_xml_eq (asset_href : List Char) (pq : List Char × List Char) (c4 : Char)
    (hxml : endsWith xmlSuffix (basename asset_href) = true)
    (hsplit : rsplitOnce '_' (basename asset_href) = some pq)
    (h4 : (splitextRoot pq.2)[3]? = some c4) :
    group_assets asset_href = .ok
      ((["date", "linci", "mask", "sl_HH", "sl_HV"] ++
          (if c4 = 'Q' then ["sl_VH", "sl_VV"] else []) : List String).map (fun kind =>
        ((splitOnChar '_' kind.toList).getLastD [],
          rsplitDir asset_href ++
            '/' :: pq.1 ++ '_' :: kind.toList ++ '_' :: splitextRoot pq.2 ++
            ".tif".toList)) ++
        [("metadata".toList, asset_href)]) := by
  simp [group_assets, endsWith_xml_not_ctif hxml, hxml, hsplit, h4]

lemma map_fst_entries (dir0 stem token href : List Char) (kinds : List String) :
    ((kinds.map (fun kind =>
        ((splitOnChar '_' kind.toList).getLastD [],
          dir0 ++ '/' :: stem ++ '_' :: kind.toList ++ '_' :: token ++ ".tif".toList)) ++
      [("metadata".toList, href)]).map Prod.fst) =
      kinds.map (fun kind => (splitOnChar '_' kind.toList).getLastD []) ++
        ["metadata".toList] := by
  simp [List.map_append, List.map_map, Function.comp]

/-- Claim C5: the grouped mapping has exactly one entry per distinct band
key; when the fourth character of the code is `Q` the keys are exactly
`date, linci, mask, HH, HV, VH, VV, metadata` (four SAR bands plus the
four auxiliary keys, eight entries), and when it is `D` they are exactly
`date, linci, mask, HH, HV, metadata` (two SAR bands plus the four
auxiliary keys, six entries). -/
theorem C5_band_key_sets (asset_href : List Char) (pq : List Char × List Char)
    (hxml : endsWith xmlSuffix (basename asset_href) = true)
    (hsplit : rsplitOnce '_' (basename asset_href) = some pq) :
    quadKeys.Nodup ∧ dualKeys.Nodup ∧ quadKeys.length = 8 ∧ dualKeys.length = 6 ∧
    ((splitextRoot pq.2)[3]? = some 'Q' →
      ∃ m, group_assets asset_href = .ok m ∧ m.map Prod.fst = quadKeys) ∧
    ((splitextRoot pq.2)[3]? = some 'D' →
      ∃ m, group_assets asset_href = .ok m ∧ m.map Prod.fst = dualKeys) := by
  refine ⟨by decide, by decide, by decide, by decide, ?_, ?_⟩
  · intro h4
    refine ⟨_, group_assets_xml_eq asset_href pq 'Q' hxml hsplit h4, ?_⟩
    rw [map_fst_entries]
    decide
  · intro h4
    refine ⟨_, group_assets_xml_eq asset_href pq 'D' hxml hsplit h4, ?_⟩
    rw [map_fst_entries]
    decide

/-- Claim C5, witness: the quad grouping of a concrete metadata filename
with code `F02QAR`. -/
theorem C5_witness :
    ∃ m, group_assets ("a/x_F02QAR.xml".toList) = .ok m ∧ m.map Prod.fst = quadKeys :=
  (C5_band_key_sets ("a/x_F02QAR.xml".toList) ("x".toList, "F02QAR.xml".toList)
    (by decide) (by decide)).2.2.2.2.1 (by decide)

/-- Claim C7: the Grouper returns the typed `Unknown type` error exactly
for the paths whose basename neither ends in `_C.tif` nor ends in `.xml`,
and a mapping is only ever returned for one of those two shapes. -/
theorem C7_unknown_type_characterization (asset_href : List Char) :
    (group_assets asset_href = .error (.valueError "Unknown type") ↔
      endsWith ctifSuffix (basename asset_href) = false ∧
        endsWith xmlSuffix (basename asset_href) = false) ∧
    (∀ m, group_assets asset_href = .ok m →
      endsWith ctifSuffix (basename asset_href) = true ∨
        endsWith xmlSuffix (basename asset_href) = true) := by
  cases h1 : endsWith ctifSuffix (basename asset_href) with
  | true =>
    constructor
    · simp [group_assets, h1]
    · intro m _
      exact Or.inl rfl
  | false =>
    cases h2 : endsWith xmlSuffix (basename asset_href) with
    | false =>
      constructor
      · simp [group_assets, h1, h2]
      · intro m hm
        simp [group_assets, h1, h2] at hm
    | true =>
      constructor
      · rcases h3 : rsplitOnce '_' (basename asset_href) with _ | pq
        · simp [group_assets, h1, h2, h3, unpackMsg]
        · rcases h4 : (splitextRoot pq.2)[3]? with _ | c4
          · simp [group_assets, h1, h2, h3, h4]
          · simp [group_assets, h1, h2, h3, h4]
      · intro m _
        exact Or.inr rfl

/-- Claim C7, witness: a concrete path of neither recognized shape gets
the typed error. -/
theorem C7_witness :
    group_assets ("a/file.bin".toList) = .error (.valueError "Unknown type") :=
  (C7_unknown_type_characterization ("a/file.bin".toList)).1.mpr ⟨by decide, by decide⟩

/-- Claim C9: for a `.xml` basename, a missing underscore makes the
Grouper fail with the unpacking `ValueError` and a code token shorter than
four characters with `IndexError` — both distinct from the typed
`Unknown type` error — and grouping succeeds exactly when the token has at
least four characters. -/
theorem C9_grouper_xml_totality (asset_href : List Char)
    (hxml : endsWith xmlSuffix (basename asset_href) = true) :
    (rsplitOnce '_' (basename asset_href) = none →
      group_assets asset_href = .error (.valueError unpackMsg)) ∧
    (∀ pq, rsplitOnce '_' (basename asset_href) = some pq →
      ((splitextRoot pq.2).length < 4 → group_assets asset_href = .error .indexError) ∧
      (4 ≤ (splitextRoot pq.2).length → ∃ m, group_assets asset_href = .ok m)) ∧
    PyError.valueError unpackMsg ≠ PyError.valueError "Unknown type" ∧
    PyError.indexError ≠ PyError.valueError "Unknown type" := by
  have hc := endsWith_xml_not_ctif hxml
  refine ⟨?_, ?_, by decide, by decide⟩
  · intro h3
    simp [group_assets, hc, hxml, h3]
  · intro pq h3
    constructor
    · intro hlen
      have h4 : (splitextRoot pq.2)[3]? = none := List.getElem?_eq_none (by omega)
      simp [group_assets, hc, hxml, h3, h4]
    · intro hlen
      have h4 : (splitextRoot pq.2)[3]? = some ((splitextRoot pq.2).get ⟨3, by omega⟩) := by
        rw [← List.get?_eq_getElem?]
        exact List.get?_eq_get (by omega)
      exact ⟨_, group_assets_xml_eq asset_href pq _ hxml h3 h4⟩

/-- Claim C9, witness: a `.xml` filename without underscore fails with the
unpacking error. -/
theorem C9_witness :
    group_assets ("a/foo.xml".toList) = .error (.valueError unpackMsg) :=
  (C9_grouper_xml_totality ("a/foo.xml".toList) (by decide)).1 (by decide)

/-- Claim C10: for every `.xml` filename whose final underscore-delimited
token (extension stripped) has at least four characters, grouping succeeds
without validating the code, and the quad key set is selected exactly when
the fourth character of the token is `Q`; any other fourth character
yields the dual key set. -/
theorem C10_grouping_no_validation (asset_href : List Char) (pq : List Char × List Char)
    (hxml : endsWith xmlSuffix (basename asset_href) = true)
    (hsplit : rsplitOnce '_' (basename asset_href) = some pq)
    (hlen : 4 ≤ (splitextRoot pq.2).length) :
    dualKeys ≠ quadKeys ∧
    ∃ m, group_assets asset_href = .ok m ∧
      (m.map Prod.fst = quadKeys ↔ (splitextRoot pq.2)[3]? = some 'Q') ∧
      ((splitextRoot pq.2)[3]? ≠ some 'Q' → m.map Prod.fst = dualKeys) := by
  obtain ⟨c4, h4⟩ : ∃ c, (splitextRoot pq.2)[3]? = some c := by
    refine ⟨(splitextRoot pq.2).get ⟨3, by omega⟩, ?_⟩
    rw [← List.get?_eq_getElem?]
    exact List.get?_eq_get (by omega)
  refine ⟨by decide, ?_⟩
  by_cases hq : c4 = 'Q'
  · subst hq
    refine ⟨_, group_assets_xml_eq asset_href pq 'Q' hxml hsplit h4, ?_, ?_⟩
    · constructor
      · intro _
        exact h4
      · intro _
        rw [map_fst_entries]
        decide
    · intro hne
      exact absurd h4 hne
  · refine ⟨_, group_assets_xml_eq asset_href pq c4 hxml hsplit h4, ?_, ?_⟩
    · rw [map_fst_entries, if_neg hq]
      constructor
      · intro hcontr
        exfalso
        revert hcontr
        decide
      · intro heq
        exfalso
        rw [h4] at heq
        exact absurd (Option.some.inj heq) hq
    · intro _
      rw [map_fst_entries, if_neg hq]
      decide

/-- Claim C10, witness: a token with invalid fourth character `Z` still
groups, into the dual key set. -/
theorem C10_witness :
    ∃ m, group_assets ("a/x_WXYZ.xml".toList) = .ok m ∧ m.map Prod.fst = dualKeys := by
  obtain ⟨hne, m, hm, hiff, hd⟩ := C10_grouping_no_validation ("a/x_WXYZ.xml".toList)
    ("x".toList, "WXYZ.xml".toList) (by decide) (by decide) (by decide)
  exact ⟨m, hm, hd (by decide)⟩

/-- Claim C6: when the reference raster's CRS is not EPSG:4326 (including
a CRS with no EPSG code), `create_item` returns the invalid-geometry
error, and no Item is observable. -/
theorem C6_crs_error (kv0 : List Char × List Char) (rest : List (List Char × List Char))
    (root_href : List Char) (dataset : Dataset) (year tok2 : List Char)
    (hyear : (splitOnChar '_' (basename kv0.2))[1]? = some year)
    (htok : (splitOnChar '_' (basename (splitextRoot kv0.2)))[2]? = some tok2)
    (hcrs : dataset.crs_epsg ≠ some 4326) :
    create_item (kv0 :: rest) root_href dataset = .error (.valueError crsMsg) ∧
    ∀ item, create_item (kv0 :: rest) root_href dataset ≠ .ok item := by
  have h : create_item (kv0 :: rest) root_href dataset = .error (.valueError crsMsg) := by
    simp [create_item, hyear, htok, hcrs]
  exact ⟨h, fun item hit => by rw [h] at hit; cases hit⟩

/-- Claim C6, witness: a concrete mosaic input with EPSG:3857 fails with
the invalid-geometry error. -/
theorem C6_witness :
    create_item [("HH".toList, "a/N05E100_15_sl_HH_F02DAR.tif".toList)] []
      ⟨some 3857, [], [], (0, 0)⟩ = .error (.valueError crsMsg) :=
  (C6_crs_error ("HH".toList, "a/N05E100_15_sl_HH_F02DAR.tif".toList) [] []
    ⟨some 3857, [], [], (0, 0)⟩ ("15".toList) ("sl".toList)
    (by decide) (by decide) (by decide)).1

end Palsar
